import Mathlib

/-!
Verification development for the automation job orchestration subsystem
(`otomasyon` app): playbook executions, approval gating, the local Ansible
runner, the Tower/AWX adapter, and the schedule manager.  Definitions are a
shallow embedding of `otomasyon/services.py`, `otomasyon/api_views.py`,
`otomasyon/views.py`, `otomasyon/tasks.py` and the model definitions in
`otomasyon/models.py` / `otomasyon/ansible_models.py`.
-/

namespace Otomasyon

/-- Status enum of `PlaybookExecution.status` (`models.py`, choices list). -/
inductive PStatus
  | pending
  | approved
  | running
  | completed
  | failed
  | cancelled
  | timeout
deriving DecidableEq, Repr

/-- Terminal statuses of a `PlaybookExecution`: the record is finished and no
further work happens on it (`completed`, `failed`, `cancelled`, `timeout`). -/
def PStatus.isTerminal : PStatus → Bool
  | .completed => true
  | .failed => true
  | .cancelled => true
  | .timeout => true
  | _ => false

/-- First-match lookup in an association list, the key-lookup semantics of a
Python `dict` represented by its entries (later overriding entries are put in
front, see `pyDictUnion`). -/
def dictLookup {V : Type} (d : List (String × V)) (k : String) : Option V :=
  match d with
  | [] => none
  | (k', v) :: rest => if k' = k then some v else dictLookup rest k

/-- Key set of a Python dict (for `in` membership tests). -/
def dictKeys {V : Type} (d : List (String × V)) : List String :=
  d.map Prod.fst

/-- Embedding of the Python dict merge `\x7b**a, **b\x7d`: entries of `b`
override entries of `a` on key collision.  Represented so that `dictLookup`
finds the overriding entry of `b` first. -/
def pyDictUnion {V : Type} (a b : List (String × V)) : List (String × V) :=
  b ++ a

/-- `services.py` line 385: the `extra_vars` field of the launch payload built
by `AnsibleTowerService.launch_job_template` is
`\x7b**survey_answers or \x7b\x7d, **extra_vars or \x7b\x7d\x7d`. -/
def launch_payload_extra_vars (survey_answers extra_vars : List (String × String)) :
    List (String × String) :=
  pyDictUnion survey_answers extra_vars

/-- Embedding of `AnsibleService._create_inventory_file` (`services.py`
lines 109-132), restricted to the host-resolution logic: explicit
`execution.target_hosts` when non-empty, else the playbook's
`target_servers` hostnames when that queryset is non-empty, else
`['localhost']`. -/
def inventory_hosts (target_hosts : List String) (target_servers : List String) :
    List String :=
  let hosts := target_hosts
  let hosts := if hosts = [] ∧ ¬ target_servers = [] then target_servers else hosts
  if hosts = [] then ["localhost"] else hosts

/-- The textual inventory written by `_create_inventory_file`: a `[targets]`
header followed by one host per line. -/
def inventory_content (target_hosts target_servers : List String) : String :=
  "[targets]\n" ++
    String.join ((inventory_hosts target_hosts target_servers).map (fun h => h ++ "\n"))

/-- Outcome of `json.loads` on a variables string: either a JSON object (its
entries, values kept opaque as strings) or some non-object JSON value. -/
inductive PyJson
  | dict (entries : List (String × String))
  | nonDict
deriving DecidableEq, Repr

/-- The `variables` value handed to `PlaybookValidator.validate_variables`:
a Python dict, a string together with its JSON-parse outcome (`none` when
`json.loads` raises `JSONDecodeError`), or a value of any other type. -/
inductive PyVars
  | dict (entries : List (String × String))
  | str (parsed : Option PyJson)
  | other
deriving DecidableEq, Repr

/-- The missing-variable scan at the end of `validate_variables`
(`services.py` lines 237-245). -/
def missing_required (entries : List (String × String)) (required_vars : List String) :
    List String :=
  required_vars.filter (fun v => ¬ (dictKeys entries).contains v)

/-- Embedding of `PlaybookValidator.validate_variables` (`services.py`
lines 222-245): returns `(is_valid, message)`.  An empty `required_vars`
short-circuits to valid; a string input is JSON-parsed first; a non-dict
value is rejected; otherwise every required variable must be a key. -/
def validate_variables (vars_ : PyVars) (required_vars : List String) :
    Bool × String :=
  if required_vars = [] then (true, "Zorunlu degisken yok")
  else
    match vars_ with
    | .str none => (false, "Degiskenler JSON formatinda olmali")
    | .str (some .nonDict) => (false, "Degiskenler dict formatinda olmali")
    | .str (some (.dict entries)) =>
        let missing := missing_required entries required_vars
        if ¬ missing = [] then
          (false, "Eksik zorunlu degiskenler: " ++ String.intercalate ", " missing)
        else (true, "Tum zorunlu degiskenler mevcut")
    | .dict entries =>
        let missing := missing_required entries required_vars
        if ¬ missing = [] then
          (false, "Eksik zorunlu degiskenler: " ++ String.intercalate ", " missing)
        else (true, "Tum zorunlu degiskenler mevcut")
    | .other => (false, "Degiskenler dict formatinda olmali")

/-- `AnsiblePlaybook` (`models.py` lines 34-78), restricted to the fields the
orchestration code reads.  Users are identified by their ids. -/
structure Playbook where
  name : String
  playbook_path : String
  requires_approval : Bool := true
  is_dangerous : Bool := false
  timeout_minutes : Nat := 30
  target_servers : List String := []
  default_variables : List (String × String) := []
  required_variables : List String := []
  allowed_users : List Nat := []
  execution_count : Nat := 0
  success_count : Nat := 0
  last_execution : Option Nat := none
deriving DecidableEq, Repr

/-- `PlaybookExecution` (`models.py` lines 81-134).  Timestamps are opaque
naturals. -/
structure Execution where
  execution_id : String
  executor : Nat
  variables_ : PyVars
  target_hosts : List String := []
  status : PStatus := .pending
  started_at : Option Nat := none
  completed_at : Option Nat := none
  return_code : Option Int := none
  stdout : String := ""
  stderr : String := ""
  approved_by : Option Nat := none
  approved_at : Option Nat := none
  approval_notes : String := ""
deriving DecidableEq, Repr

/-- `PlaybookExecution.is_successful` (`models.py` lines 132-134). -/
def Execution.is_successful (e : Execution) : Bool :=
  e.status = .completed ∧ e.return_code = some 0

/-- A JSON response of the API views: success payload or an error with an
HTTP status code. -/
inductive ApiResp
  | ok (message : String)
  | err (statusCode : Nat) (message : String)
deriving DecidableEq, Repr

/-- Whether a response is an error response. -/
def ApiResp.isErr : ApiResp → Bool
  | .err _ _ => true
  | .ok _ => false

/-- Result of `api_execute_playbook`: the HTTP response, the created
`PlaybookExecution` (if any), and whether `execute_ansible_playbook.delay`
was enqueued. -/
structure ApiExecuteResult where
  resp : ApiResp
  created : Option Execution
  dispatched : Bool
deriving DecidableEq, Repr

/-- Embedding of `api_execute_playbook` (`api_views.py` lines 17-73):
permission check against `allowed_users`, variable validation (no Execution
is created on failure), then creation with status `pending` or `approved`
depending on `requires_approval`, dispatching immediately only when no
approval is required. -/
def api_execute_playbook (pb : Playbook) (user : Nat) (vars_ : PyVars)
    (target_hosts : List String) (eid : String) : ApiExecuteResult :=
  if ¬ pb.allowed_users = [] ∧ ¬ pb.allowed_users.contains user then
    ⟨.err 403 "Bu playbooku calistirma izniniz yok", none, false⟩
  else
    let vr := validate_variables vars_ pb.required_variables
    if vr.1 = false then ⟨.err 400 vr.2, none, false⟩
    else
      let ex : Execution := {
        execution_id := eid
        executor := user
        variables_ := vars_
        target_hosts := target_hosts
        status := if pb.requires_approval then .pending else .approved }
      ⟨.ok (if pb.requires_approval then
              "Playbook calistirma talebi onaya gonderildi"
            else "Playbook calistirilmaya baslandi"),
        some ex, !pb.requires_approval⟩

/-- Embedding of the HTML view `execute_playbook` (`views.py` lines 143-170)
on a POST request: the `PlaybookExecution` is created unconditionally — the
view performs no variable validation at all.  The posted `variables` string
is stored raw; it is represented here by its JSON-parse outcome. -/
def view_execute_playbook (pb : Playbook) (user : Nat)
    (variables_post : Option PyJson) (target_hosts : List String) (eid : String) :
    Execution :=
  { execution_id := eid
    executor := user
    variables_ := .str variables_post
    target_hosts := target_hosts
    status := if pb.requires_approval then .pending else .approved }

/-- Embedding of `api_approve_execution` (`api_views.py` lines 115-160):
staff-only; rejected with HTTP 400 unless the status is still `pending`;
on success sets `approved`/`approved_by`/`approved_at` and dispatches. -/
def api_approve_execution (ex : Execution) (approver : Nat) (is_staff : Bool)
    (notes : String) (now : Nat) : ApiResp × Execution × Bool :=
  if ¬ is_staff then
    (.err 403 "Onaylama izniniz yok", ex, false)
  else if ¬ ex.status = .pending then
    (.err 400 "Bu calistirma zaten isleme alinmis", ex, false)
  else
    (.ok "Calistirma onaylandi ve baslatildi",
      { ex with status := .approved, approved_by := some approver,
                approved_at := some now, approval_notes := notes },
      true)

/-- Embedding of `api_cancel_execution` (`api_views.py` lines 163-198): the
requester must be the executor or staff; the cancellation is rejected with
HTTP 400 unless the status is `pending` or `approved`; on success the status
becomes `cancelled` and `completed_at` is set.  The returned execution is the
stored record after the call. -/
def api_cancel_execution (ex : Execution) (requester : Nat) (is_staff : Bool)
    (now : Nat) : ApiResp × Execution :=
  if ¬ ex.executor = requester ∧ ¬ is_staff then
    (.err 403 "Bu calistirmayi iptal etme izniniz yok", ex)
  else if ¬ ex.status = .pending ∧ ¬ ex.status = .approved then
    (.err 400 "Bu calistirma iptal edilemez", ex)
  else
    (.ok "Calistirma iptal edildi",
      { ex with status := .cancelled, completed_at := some now })

/-- Configuration of `AnsibleService.__init__` (`services.py` lines 20-23):
`ANSIBLE_PATH`, `ANSIBLE_WORKING_DIR` and the service-wide subprocess bound
`ANSIBLE_TIMEOUT` (default 1800 seconds, i.e. 30 minutes). -/
structure AnsibleServiceCfg where
  ansible_path : String := "ansible-playbook"
  working_dir : String := "/tmp/ansible"
  timeout : Nat := 1800
deriving DecidableEq, Repr

/-- Behaviour of the external `ansible-playbook` process for one run: either
it finishes after `duration` seconds with a return code and output, or some
other exception is raised inside the `try` block after the temporary files
were created. -/
inductive SubprocResult
  | completedIn (duration : Nat) (returncode : Int) (out err : String)
  | exnRaised (msg : String)
deriving DecidableEq, Repr

/-- Embedding of `AnsibleService._build_ansible_command` (`services.py`
lines 157-171): the per-definition `timeout_minutes` is only appended as a
`--timeout` CLI flag (in seconds) when non-zero; it is not the subprocess
wait bound. -/
def build_ansible_command (svc : AnsibleServiceCfg) (playbook_path : String)
    (inventory_file vars_file : String) (pb : Playbook) : List String :=
  let cmd := [svc.ansible_path, playbook_path, "-i", inventory_file,
              "--extra-vars", "@" ++ vars_file, "-v"]
  if ¬ pb.timeout_minutes = 0 then
    cmd ++ ["--timeout", toString (pb.timeout_minutes * 60)]
  else cmd

/-- Result of one `AnsibleService.execute_playbook` call: the saved
execution, the saved playbook, and whether `_cleanup_temp_files` ran on the
temporary directory of this run. -/
structure RunOutput where
  execution : Execution
  playbook : Playbook
  temp_cleaned : Bool
deriving DecidableEq, Repr

/-- Embedding of `AnsibleService.execute_playbook` (`services.py`
lines 25-102).  The status is set to `running` and `started_at` recorded;
then `subprocess.run(..., timeout=svc.timeout)` is modelled by `proc`: a
duration beyond `svc.timeout` raises `TimeoutExpired` (status `timeout`, no
cleanup, no playbook-statistics update); any other exception gives status
`failed` with the message in `stderr` (no cleanup, no statistics); a normal
exit records return code/stdout/stderr, sets `completed`/`failed` by the
return code, updates the playbook statistics and cleans the temporary
directory. -/
def AnsibleService.execute_playbook (svc : AnsibleServiceCfg) (pb : Playbook)
    (ex : Execution) (started finished : Nat) (proc : SubprocResult) : RunOutput :=
  let ex := { ex with status := .running, started_at := some started }
  match proc with
  | .exnRaised msg =>
      ⟨{ ex with status := .failed, stderr := msg, completed_at := some finished },
        pb, false⟩
  | .completedIn duration rc out err =>
      if svc.timeout < duration then
        ⟨{ ex with status := .timeout, completed_at := some finished }, pb, false⟩
      else
        let ex := { ex with
          return_code := some rc
          stdout := out
          stderr := err
          completed_at := some finished
          status := if rc = 0 then .completed else .failed }
        let pb := { pb with
          success_count := if rc = 0 then pb.success_count + 1 else pb.success_count
          execution_count := pb.execution_count + 1
          last_execution := some finished }
        ⟨ex, pb, true⟩

/-- The JSON payload returned by `GET /api/v2/jobs/\x7bid\x7d/` as read by
`AnsibleTowerService.get_job_status`.  `elapsed` (a float in the API) is kept
as an opaque natural; the Python truthiness test on it makes `0` behave like
an absent value. -/
structure TowerJobData where
  status : String
  started : Option String := none
  finished : Option String := none
  elapsed : Option Nat := none
deriving DecidableEq, Repr

/-- One entry of `GET /api/v2/jobs/\x7bid\x7d/job_events/` as read by
`AnsibleTowerService._fetch_job_output`. -/
structure JobEvent where
  event : String
  failed : Bool := false
  stdout : String := ""
deriving DecidableEq, Repr

/-- The two output endpoints consulted by `_fetch_job_output`: the stdout
text endpoint and the job-events endpoint, each with its HTTP status. -/
structure TowerOutputResponse where
  stdout_status : Nat := 200
  stdout_text : String := ""
  events_status : Nat := 200
  events : List JobEvent := []
deriving DecidableEq, Repr

/-- `AnsibleJobExecution` (`ansible_models.py` lines 129-232), restricted to
the fields touched by the polling code. -/
structure JobExecution where
  execution_id : String
  tower_job_id : Option Nat := none
  status : String := "pending"
  started_at : Option String := none
  finished_at : Option String := none
  elapsed : Option Nat := none
  result_stdout : String := ""
  result_stderr : String := ""
deriving DecidableEq, Repr

/-- The `status_mapping` dict of `AnsibleTowerService.update_job_status`
(`services.py` lines 465-476): identity on the seven known states, `error`
for anything else (`.get(..., 'error')`). -/
def status_mapping (s : String) : String :=
  if s = "pending" ∨ s = "waiting" ∨ s = "running" ∨ s = "successful" ∨
     s = "failed" ∨ s = "error" ∨ s = "canceled" then s
  else "error"

/-- Embedding of `AnsibleTowerService._fetch_job_output` (`services.py`
lines 513-545): when a Tower job id is present, store the stdout text on an
HTTP 200, then collect the `stdout` of failed/error job events as
`result_stderr` when any exist. -/
def fetch_job_output (je : JobExecution) (resp : TowerOutputResponse) :
    JobExecution :=
  match je.tower_job_id with
  | none => je
  | some _ =>
      let je :=
        if resp.stdout_status = 200 then { je with result_stdout := resp.stdout_text }
        else je
      if resp.events_status = 200 then
        let stderr_lines := resp.events.filterMap (fun e =>
          if (e.event = "error" ∨ e.failed = true) ∧ ¬ e.stdout = "" then some e.stdout
          else none)
        if ¬ stderr_lines = [] then
          { je with result_stderr := String.intercalate "\n" stderr_lines }
        else je
      else je

/-- Result of one `update_job_status` call: the boolean the method returns,
the saved job execution, and whether `_fetch_job_output` ran during the
call. -/
structure PollResult where
  ok : Bool
  job : JobExecution
  fetched : Bool
deriving DecidableEq, Repr

/-- The field copies of `update_job_status` (`services.py` lines 475-493):
store the mapped status, then copy `started`, `finished` and `elapsed` from
the remote payload when each is truthy (an empty string or a zero `elapsed`
is falsy in Python and is not copied). -/
def poll_apply_fields (je : JobExecution) (jd : TowerJobData) : JobExecution :=
  let je := { je with status := status_mapping jd.status }
  let je := match jd.started with
            | some s => if ¬ s = "" then { je with started_at := some s } else je
            | none => je
  let je := match jd.finished with
            | some f => if ¬ f = "" then { je with finished_at := some f } else je
            | none => je
  match jd.elapsed with
  | some e => if ¬ e = 0 then { je with elapsed := some e } else je
  | none => je

/-- Embedding of `AnsibleTowerService.update_job_status` (`services.py`
lines 457-511).  `job_data` is the (possibly failed) `get_job_status` fetch;
`out_resp` is what `_fetch_job_output` would see.  The status is mapped and
the payload fields are stored (`poll_apply_fields`); output is fetched
exactly when the new status is `successful`, `failed` or `error` and
`result_stdout` is still the empty string (`not job_execution.result_stdout`
in the code). -/
def update_job_status (je : JobExecution) (job_data : Option TowerJobData)
    (out_resp : TowerOutputResponse) : PollResult :=
  match job_data with
  | none => ⟨false, je, false⟩
  | some jd =>
      if (status_mapping jd.status = "successful" ∨
          status_mapping jd.status = "failed" ∨
          status_mapping jd.status = "error") ∧
          (poll_apply_fields je jd).result_stdout = "" then
        ⟨true, fetch_job_output (poll_apply_fields je jd) out_resp, true⟩
      else ⟨true, poll_apply_fields je jd, false⟩

/-- A civil date-time (UTC, microseconds dropped), the broken-down form of
Python's aware `datetime` used by `ScheduleManager`. -/
structure DateTime where
  year : Int
  month : Nat
  day : Nat
  hour : Nat := 0
  minute : Nat := 0
  second : Nat := 0
deriving DecidableEq, Repr

/-- Days since 1970-01-01 of a civil date (Gregorian calendar, the standard
days-from-civil algorithm with truncating integer division). -/
def daysFromCivil (y0 : Int) (m d : Nat) : Int :=
  let y : Int := if m ≤ 2 then y0 - 1 else y0
  let era : Int := (if 0 ≤ y then y else y - 399) / 400
  let yoe : Int := y - era * 400
  let mp : Int := if 2 < m then (m : Int) - 3 else (m : Int) + 9
  let doy : Int := (153 * mp + 2) / 5 + (d : Int) - 1
  let doe : Int := yoe * 365 + yoe / 4 - yoe / 100 + doy
  era * 146097 + doe - 719468

/-- Civil date from days since 1970-01-01 (inverse of `daysFromCivil`). -/
def civilFromDays (z0 : Int) : Int × Nat × Nat :=
  let z : Int := z0 + 719468
  let era : Int := (if 0 ≤ z then z else z - 146096) / 146097
  let doe : Int := z - era * 146097
  let yoe : Int := (doe - doe / 1460 + doe / 36524 - doe / 146096) / 365
  let y : Int := yoe + era * 400
  let doy : Int := doe - (365 * yoe + yoe / 4 - yoe / 100)
  let mp : Int := (5 * doy + 2) / 153
  let d : Int := doy - (153 * mp + 2) / 5 + 1
  let m : Int := if mp < 10 then mp + 3 else mp - 9
  (if m ≤ 2 then y + 1 else y, m.toNat, d.toNat)

/-- Seconds since the epoch of a `DateTime`. -/
def DateTime.toSeconds (dt : DateTime) : Int :=
  daysFromCivil dt.year dt.month dt.day * 86400 +
    dt.hour * 3600 + dt.minute * 60 + dt.second

/-- `DateTime` of a number of seconds since the epoch. -/
def DateTime.ofSeconds (s : Int) : DateTime :=
  let days := s.ediv 86400
  let rem := (s.emod 86400).toNat
  let c := civilFromDays days
  { year := c.1, month := c.2.1, day := c.2.2,
    hour := rem / 3600, minute := rem % 3600 / 60, second := rem % 60 }

/-- Python `datetime + timedelta(seconds=n)` on an aware datetime: shift the
instant. -/
def DateTime.addSeconds (dt : DateTime) (n : Int) : DateTime :=
  .ofSeconds (dt.toSeconds + n)

/-- Python `datetime.weekday()`: Monday is `0`. -/
def DateTime.weekday (dt : DateTime) : Nat :=
  ((daysFromCivil dt.year dt.month dt.day + 3).emod 7).toNat

/-- `now.replace(hour=h, minute=m, second=0, microsecond=0)`. -/
def DateTime.replaceTime (dt : DateTime) (h m : Nat) : DateTime :=
  { dt with hour := h, minute := m, second := 0 }

/-- A Python `datetime.time` value (microseconds dropped). -/
structure TimeOfDay where
  hour : Nat
  minute : Nat
  second : Nat := 0
deriving DecidableEq, Repr

/-- Seconds since midnight; time comparison `<` on Python `time` values is
comparison of these. -/
def TimeOfDay.secondsOfDay (t : TimeOfDay) : Nat :=
  t.hour * 3600 + t.minute * 60 + t.second

/-- `now.time()`. -/
def DateTime.timeOfDay (dt : DateTime) : TimeOfDay :=
  ⟨dt.hour, dt.minute, dt.second⟩

/-- `AutomationSchedule` (`models.py` lines 137-172), restricted to the
fields `ScheduleManager.calculate_next_run` reads.  `scheduled_date` is the
`(year, month, day)` of the nullable `DateField`. -/
structure Schedule where
  schedule_type : String
  scheduled_time : TimeOfDay
  scheduled_date : Option (Int × Nat × Nat) := none
  cron_expression : String := ""
  is_enabled : Bool := true
  run_count : Nat := 0
deriving DecidableEq, Repr

/-- Embedding of `ScheduleManager.calculate_next_run` (`services.py`
lines 251-323); `now` (`timezone.now()` in the code) is passed explicitly.
Note the `cron` branch: the code ignores `cron_expression` entirely and
returns `now + timedelta(hours=1)` (its own comment calls it a simple
implementation for now). -/
def calculate_next_run (schedule : Schedule) (now : DateTime) : Option DateTime :=
  if schedule.schedule_type = "once" then
    match schedule.scheduled_date with
    | some (y, m, d) =>
        let next_run : DateTime :=
          { year := y, month := m, day := d,
            hour := schedule.scheduled_time.hour,
            minute := schedule.scheduled_time.minute,
            second := schedule.scheduled_time.second }
        if now.toSeconds < next_run.toSeconds then some next_run else none
    | none => none
  else if schedule.schedule_type = "daily" then
    let next_run := now.replaceTime schedule.scheduled_time.hour
      schedule.scheduled_time.minute
    if next_run.toSeconds ≤ now.toSeconds then some (next_run.addSeconds 86400)
    else some next_run
  else if schedule.schedule_type = "weekly" then
    let days_ahead : Int := 0 - (now.weekday : Int)
    let days_ahead := if days_ahead ≤ 0 then days_ahead + 7 else days_ahead
    let next_run := now.addSeconds (days_ahead * 86400)
    some (next_run.replaceTime schedule.scheduled_time.hour
      schedule.scheduled_time.minute)
  else if schedule.schedule_type = "monthly" then
    if now.day = 1 ∧ now.timeOfDay.secondsOfDay < schedule.scheduled_time.secondsOfDay then
      some (now.replaceTime schedule.scheduled_time.hour
        schedule.scheduled_time.minute)
    else
      let next_month : DateTime :=
        if now.month = 12 then { now with year := now.year + 1, month := 1, day := 1 }
        else { now with month := now.month + 1, day := 1 }
      some (next_month.replaceTime schedule.scheduled_time.hour
        schedule.scheduled_time.minute)
  else if schedule.schedule_type = "cron" then
    some (now.addSeconds 3600)
  else none

/-- One field of a five-field cron expression: `*` or a literal number.
Modelled from the spec (the code under `src/` contains no cron evaluator at
all); used only to state what a real cron evaluation of a concrete
expression would require. -/
inductive CronField
  | star
  | num (n : Nat)
deriving DecidableEq, Repr

/-- Whether a cron field accepts a component value. -/
def cronFieldMatches : CronField → Nat → Bool
  | .star, _ => true
  | .num n, v => n = v

/-- A parsed five-field cron expression `minute hour day-of-month month
day-of-week`.  Modelled from the spec. -/
structure CronExpr where
  minute : CronField
  hour : CronField
  dom : CronField
  month : CronField
  dow : CronField
deriving DecidableEq, Repr

/-- Whether a `DateTime` matches a cron expression (`dow`: Monday is `0`).
Modelled from the spec. -/
def cronMatches (c : CronExpr) (dt : DateTime) : Bool :=
  cronFieldMatches c.minute dt.minute ∧ cronFieldMatches c.hour dt.hour ∧
  cronFieldMatches c.dom dt.day ∧ cronFieldMatches c.month dt.month ∧
  cronFieldMatches c.dow dt.weekday

/-- The lifecycle-relevant projection of one `PlaybookExecution` for the
approval-gating analysis: the owning playbook's `requires_approval` flag
(immutable during the run), the status, the approver, and whether an
`execute_ansible_playbook` task has been enqueued for it. -/
structure ExecLife where
  requires_approval : Bool
  status : PStatus
  approved_by : Option Nat
  dispatched : Bool
deriving DecidableEq, Repr

/-- Creation through `api_execute_playbook` (`api_views.py` lines 44-56) or
the HTML view (`views.py` lines 148-164): status `pending` when approval is
required, else `approved`; the run task is enqueued immediately exactly when
no approval is required. -/
def submit_create (ra : Bool) : ExecLife :=
  { requires_approval := ra
    status := if ra then .pending else .approved
    approved_by := none
    dispatched := !ra }

/-- Creation through `process_scheduled_playbooks` (`tasks.py` lines 55-67):
the execution is created with status `approved` and dispatched immediately,
regardless of the playbook's `requires_approval` flag, and no approver is
recorded. -/
def scheduler_create (ra : Bool) : ExecLife :=
  { requires_approval := ra
    status := .approved
    approved_by := none
    dispatched := true }

/-- The operations that mutate an execution's lifecycle state:
`approve` (`api_views.py` lines 130-148, guarded on `pending`, records the
approver and enqueues the run task), `cancel` (`api_views.py` lines 178-187,
guarded on `pending`/`approved`), `run_start` (`services.py` lines 34-37,
performed by the worker on a dispatched execution — it sets `running`
unconditionally, with no approval check and no `StateConflictError`), and
`run_finish` (`services.py` lines 63-102). -/
inductive OpStep : ExecLife → ExecLife → Prop
  | approve (e : ExecLife) (u : Nat) (h : e.status = .pending) :
      OpStep e { e with status := .approved, approved_by := some u, dispatched := true }
  | cancel (e : ExecLife) (h : e.status = .pending ∨ e.status = .approved) :
      OpStep e { e with status := .cancelled }
  | run_start (e : ExecLife) (h : e.dispatched = true) :
      OpStep e { e with status := .running }
  | run_finish (e : ExecLife) (s : PStatus) (h : e.status = .running)
      (hs : s = .completed ∨ s = .failed ∨ s = .timeout) :
      OpStep e { e with status := s }

/-- Lifecycle states reachable when executions are created only through the
API/HTML submit endpoints (no scheduler). -/
inductive ApiReachable : ExecLife → Prop
  | init (ra : Bool) : ApiReachable (submit_create ra)
  | step {e e' : ExecLife} : ApiReachable e → OpStep e e' → ApiReachable e'

/-- Lifecycle states reachable in the full system, where executions are also
created by the scheduler task. -/
inductive SysReachable : ExecLife → Prop
  | api_init (ra : Bool) : SysReachable (submit_create ra)
  | sched_init (ra : Bool) : SysReachable (scheduler_create ra)
  | step {e e' : ExecLife} : SysReachable e → OpStep e e' → SysReachable e'

end Otomasyon

namespace Otomasyon

theorem dictLookup_pyDictUnion {V : Type} (a b : List (String × V)) (k : String) :
    dictLookup (pyDictUnion a b) k =
      match dictLookup b k with
      | some v => some v
      | none => dictLookup a k := by
  induction b with
  | nil => simp [pyDictUnion, dictLookup]
  | cons p rest ih =>
      by_cases h : p.1 = k
      · simp [pyDictUnion, dictLookup, h]
      · simpa [pyDictUnion, dictLookup, h] using ih

/-- Claim C8: when the variable maps are merged for a remote launch, explicit
`extra_vars` takes precedence over `survey_answers` on every colliding key:
for every key present in both maps, the `extra_vars` payload sent in the
launch request carries the value from `extra_vars`. -/
theorem c8_extra_vars_precedence (survey_answers extra_vars : List (String × String))
    (k : String) (v w : String)
    (hs : dictLookup survey_answers k = some w)
    (he : dictLookup extra_vars k = some v) :
    dictLookup (launch_payload_extra_vars survey_answers extra_vars) k = some v := by
  rw [launch_payload_extra_vars, dictLookup_pyDictUnion, he]

theorem c8_extra_vars_precedence_witness :
    dictLookup (launch_payload_extra_vars [("region", "eu")] [("region", "us")]) "region"
      = some "us" :=
  c8_extra_vars_precedence [("region", "eu")] [("region", "us")] "region" "us" "eu" rfl rfl

/-- Claim C9: the local runner's ephemeral inventory is built in priority
order: the Execution's explicit `target_hosts` when non-empty; otherwise the
definition's `target_servers` when non-empty; otherwise exactly
`['localhost']`. -/
theorem c9_inventory_priority (th ts : List String) :
    (¬ th = [] → inventory_hosts th ts = th) ∧
    (th = [] → ¬ ts = [] → inventory_hosts th ts = ts) ∧
    (th = [] → ts = [] → inventory_hosts th ts = ["localhost"]) := by
  refine ⟨fun h => ?_, fun h h' => ?_, fun h h' => ?_⟩
  · simp only [inventory_hosts, h]
    simp [h]
  · simp [inventory_hosts, h, h']
  · simp [inventory_hosts, h, h']

theorem c9_inventory_priority_witness :
    inventory_hosts [] [] = ["localhost"] :=
  (c9_inventory_priority [] []).2.2 rfl rfl

/-- Claim C2: calling cancel on an Execution whose status is already terminal
(for example `completed`) fails with an error response and mutates no field
of the Execution record: no update after a terminal state is accepted by
`api_cancel_execution`. -/
theorem c2_cancel_terminal_rejected (ex : Execution) (requester : Nat)
    (is_staff : Bool) (now : Nat) (h : ex.status.isTerminal = true) :
    (api_cancel_execution ex requester is_staff now).1.isErr = true ∧
    (api_cancel_execution ex requester is_staff now).2 = ex := by
  have h1 : ¬ ex.status = .pending := by
    intro hp; rw [hp] at h; simp [PStatus.isTerminal] at h
  have h2 : ¬ ex.status = .approved := by
    intro hp; rw [hp] at h; simp [PStatus.isTerminal] at h
  unfold api_cancel_execution
  by_cases hperm : ¬ ex.executor = requester ∧ ¬ is_staff = true
  · simp only [hperm, if_pos, if_true]
    exact ⟨rfl, rfl⟩
  · simp only [hperm, if_neg, if_false]
    rw [if_pos ⟨h1, h2⟩]
    exact ⟨rfl, rfl⟩

theorem c2_cancel_terminal_rejected_witness :
    (api_cancel_execution
      { execution_id := "e1", executor := 1, variables_ := .dict [],
        status := .completed } 1 true 5).1.isErr = true ∧
    (api_cancel_execution
      { execution_id := "e1", executor := 1, variables_ := .dict [],
        status := .completed } 1 true 5).2 =
      { execution_id := "e1", executor := 1, variables_ := .dict [],
        status := .completed } :=
  c2_cancel_terminal_rejected _ 1 true 5 rfl

/-- Claim C3 (counterexample): a submission through the HTML view
`execute_playbook` (`views.py` lines 143-170) whose supplied variables are
missing the required variable `region` nevertheless creates an Execution
record — that submit path performs no validation, so the claim as stated
over every submission fails. -/
theorem c3_view_submit_counterexample :
    (validate_variables (.str (some (.dict []))) ["region"]).1 = false ∧
    view_execute_playbook
        { name := "pb", playbook_path := "p.yml", required_variables := ["region"] }
        7 (some (.dict [])) [] "e1" =
      { execution_id := "e1", executor := 7, variables_ := .str (some (.dict [])),
        status := .pending } := by
  exact ⟨rfl, rfl⟩

/-- Claim C3 (amended): the API submit endpoint `api_execute_playbook`
surfaces the validation error and creates no Execution record (and enqueues
nothing) whenever the supplied variables fail validation against the
definition's `required_variables`; the HTML-view submit path, by contrast,
performs no validation and always creates the record. -/
theorem c3_api_validation_no_creation (pb : Playbook) (user : Nat)
    (vars_ : PyVars) (th : List String) (eid : String)
    (hallow : pb.allowed_users = [] ∨ pb.allowed_users.contains user = true)
    (hv : (validate_variables vars_ pb.required_variables).1 = false) :
    api_execute_playbook pb user vars_ th eid =
      ⟨.err 400 (validate_variables vars_ pb.required_variables).2, none, false⟩ := by
  have hperm : ¬ (¬ pb.allowed_users = [] ∧ ¬ pb.allowed_users.contains user) := by
    rcases hallow with h | h
    · intro hc; exact hc.1 h
    · intro hc; exact hc.2 h
  unfold api_execute_playbook
  rw [if_neg hperm, if_pos hv]

theorem c3_api_validation_no_creation_witness :
    api_execute_playbook
        { name := "pb", playbook_path := "p.yml", required_variables := ["region"] }
        7 (.dict []) [] "e1" =
      ⟨.err 400 (validate_variables (.dict []) ["region"]).2, none, false⟩ :=
  c3_api_validation_no_creation
    { name := "pb", playbook_path := "p.yml", required_variables := ["region"] }
    7 (.dict []) [] "e1" (Or.inl rfl) rfl

/-- Claim C4 (counterexample): under the default service configuration
(`ANSIBLE_TIMEOUT = 1800`), a run of a definition whose own timeout is
60 minutes (3600 seconds) whose process would finish after 3000 seconds —
well within the definition's bound — is nevertheless cut off as a timeout:
the subprocess wait is bounded by the service-wide setting, not by
`definition.timeout`. -/
theorem c4_timeout_bound_counterexample :
    (AnsibleService.execute_playbook {}
        { name := "pb", playbook_path := "p.yml", timeout_minutes := 60 }
        { execution_id := "e1", executor := 1, variables_ := .dict [] }
        10 20 (.completedIn 3000 0 "ok" "")).execution.status = .timeout ∧
    (3000 : Nat) <
      ({ name := "pb", playbook_path := "p.yml",
         timeout_minutes := 60 } : Playbook).timeout_minutes * 60 := by
  exact ⟨rfl, by decide⟩

/-- Claim C4 (amended): the subprocess wait bound of the local runner is the
service-wide `ANSIBLE_TIMEOUT` setting (default 1800 seconds, about
30 minutes), not the definition's own timeout; `timeout_minutes` is only
forwarded to the `ansible-playbook` command line as a `--timeout` flag (in
seconds); when the wait bound expires the process run is abandoned and the
Execution's status becomes `timeout`. -/
theorem c4_service_timeout_bound (svc : AnsibleServiceCfg) (pb : Playbook)
    (ex : Execution) (t1 t2 : Nat) (d : Nat) (rc : Int) (out err : String)
    (inv vf : String) (hd : svc.timeout < d) :
    (AnsibleService.execute_playbook svc pb ex t1 t2
        (.completedIn d rc out err)).execution.status = .timeout ∧
    ({} : AnsibleServiceCfg).timeout = 1800 ∧
    (¬ pb.timeout_minutes = 0 →
      build_ansible_command svc pb.playbook_path inv vf pb =
        [svc.ansible_path, pb.playbook_path, "-i", inv, "--extra-vars",
         "@" ++ vf, "-v", "--timeout", toString (pb.timeout_minutes * 60)]) := by
  refine ⟨?_, rfl, ?_⟩
  · simp [AnsibleService.execute_playbook, hd]
  · intro hnz
    unfold build_ansible_command
    rw [if_pos hnz]
    rfl

theorem c4_service_timeout_bound_witness :
    (AnsibleService.execute_playbook {}
        { name := "pb", playbook_path := "p.yml", timeout_minutes := 60 }
        { execution_id := "e1", executor := 1, variables_ := .dict [] }
        10 20 (.completedIn 2000 0 "" "")).execution.status = .timeout ∧
    ({} : AnsibleServiceCfg).timeout = 1800 ∧
    (¬ ({ name := "pb", playbook_path := "p.yml",
          timeout_minutes := 60 } : Playbook).timeout_minutes = 0 →
      build_ansible_command {} "p.yml" "inv.ini" "vars.json"
          { name := "pb", playbook_path := "p.yml", timeout_minutes := 60 } =
        ["ansible-playbook", "p.yml", "-i", "inv.ini", "--extra-vars",
         "@vars.json", "-v", "--timeout", toString (60 * 60)]) :=
  c4_service_timeout_bound {}
    { name := "pb", playbook_path := "p.yml", timeout_minutes := 60 }
    { execution_id := "e1", executor := 1, variables_ := .dict [] }
    10 20 2000 0 "" "" "inv.ini" "vars.json" (by decide)

/-- Claim C6 (counterexample): on the timeout exit path of a local run the
temporary directory (holding the ephemeral inventory and variables files) is
not deleted — `_cleanup_temp_files` only runs on the normal-exit path, so
the resources are not released on every exit path. -/
theorem c6_timeout_leak_counterexample :
    (AnsibleService.execute_playbook {}
        { name := "pb", playbook_path := "p.yml" }
        { execution_id := "e1", executor := 1, variables_ := .dict [] }
        10 20 (.completedIn 4000 0 "" "")).temp_cleaned = false := rfl

/-- Claim C6 (amended): the ephemeral inventory/variables files and the
temporary working directory are released only on the path where the external
process exited within the service wait bound (whatever the return code); on
timeout expiry and on an internal exception the temporary directory is
leaked. -/
theorem c6_cleanup_only_on_exit_path (svc : AnsibleServiceCfg) (pb : Playbook)
    (ex : Execution) (t1 t2 : Nat) (d : Nat) (rc : Int) (out err msg : String) :
    (AnsibleService.execute_playbook svc pb ex t1 t2
        (.completedIn d rc out err)).temp_cleaned = decide (d ≤ svc.timeout) ∧
    (AnsibleService.execute_playbook svc pb ex t1 t2
        (.exnRaised msg)).temp_cleaned = false := by
  constructor
  · by_cases hd : svc.timeout < d
    · simp [AnsibleService.execute_playbook, hd, Nat.not_le.mpr hd]
    · simp [AnsibleService.execute_playbook, hd, Nat.not_lt.mp hd]
  · rfl

/-- Claim C10: on the timeout path and on the internal-exception path of a
local run the playbook's `execution_count`, `success_count` and
`last_execution` are left unchanged; they are updated only on the path where
the external process returned an exit code, where `execution_count` is
incremented, `last_execution` is set, and `success_count` is incremented
exactly when the exit code is 0. -/
theorem c10_stats_frame (svc : AnsibleServiceCfg) (pb : Playbook)
    (ex : Execution) (t1 t2 : Nat) (d : Nat) (rc : Int) (out err msg : String) :
    (AnsibleService.execute_playbook svc pb ex t1 t2
        (.exnRaised msg)).playbook = pb ∧
    (svc.timeout < d →
      (AnsibleService.execute_playbook svc pb ex t1 t2
          (.completedIn d rc out err)).playbook = pb) ∧
    (d ≤ svc.timeout →
      (AnsibleService.execute_playbook svc pb ex t1 t2
          (.completedIn d rc out err)).playbook =
        { pb with
            execution_count := pb.execution_count + 1
            success_count :=
              if rc = 0 then pb.success_count + 1 else pb.success_count
            last_execution := some t2 }) := by
  refine ⟨rfl, ?_, ?_⟩
  · intro hd
    simp [AnsibleService.execute_playbook, hd]
  · intro hd
    simp [AnsibleService.execute_playbook, Nat.not_lt.mpr hd]

theorem c10_stats_frame_witness :
    (AnsibleService.execute_playbook {}
        { name := "pb", playbook_path := "p.yml" }
        { execution_id := "e1", executor := 1, variables_ := .dict [] }
        10 20 (.completedIn 5 0 "o" "")).playbook =
      { ({ name := "pb", playbook_path := "p.yml" } : Playbook) with
          execution_count :=
            ({ name := "pb", playbook_path := "p.yml" } : Playbook).execution_count + 1
          success_count :=
            if (0 : Int) = 0 then
              ({ name := "pb", playbook_path := "p.yml" } : Playbook).success_count + 1
            else ({ name := "pb", playbook_path := "p.yml" } : Playbook).success_count
          last_execution := some 20 } :=
  (c10_stats_frame {} { name := "pb", playbook_path := "p.yml" }
    { execution_id := "e1", executor := 1, variables_ := .dict [] }
    10 20 5 0 "o" "" "").2.2 (by decide)

theorem poll_apply_fields_result_stdout (je : JobExecution) (jd : TowerJobData) :
    (poll_apply_fields je jd).result_stdout = je.result_stdout := by
  obtain ⟨st, sta, fin, el⟩ := jd
  cases sta <;> cases fin <;> cases el <;>
    simp only [poll_apply_fields] <;> split_ifs <;> rfl

theorem poll_apply_fields_tower_job_id (je : JobExecution) (jd : TowerJobData) :
    (poll_apply_fields je jd).tower_job_id = je.tower_job_id := by
  obtain ⟨st, sta, fin, el⟩ := jd
  cases sta <;> cases fin <;> cases el <;>
    simp only [poll_apply_fields] <;> split_ifs <;> rfl

theorem poll_apply_fields_elapsed (je : JobExecution) (jd : TowerJobData) :
    (poll_apply_fields je jd).elapsed =
      match jd.elapsed with
      | some e => if ¬ e = 0 then some e else je.elapsed
      | none => je.elapsed := by
  obtain ⟨st, sta, fin, el⟩ := jd
  cases sta <;> cases fin <;> cases el <;>
    simp only [poll_apply_fields] <;> split_ifs <;> rfl

theorem fetch_job_output_result_stdout (je : JobExecution)
    (resp : TowerOutputResponse) (hid : ¬ je.tower_job_id = none)
    (hok : resp.stdout_status = 200) :
    (fetch_job_output je resp).result_stdout = resp.stdout_text := by
  obtain ⟨eid, tid, st, sa, fa, el, so, se⟩ := je
  cases tid with
  | none => exact absurd rfl hid
  | some n =>
      simp only [fetch_job_output]
      rw [if_pos hok]
      split_ifs <;> rfl

theorem fetch_job_output_elapsed (je : JobExecution)
    (resp : TowerOutputResponse) :
    (fetch_job_output je resp).elapsed = je.elapsed := by
  obtain ⟨eid, tid, st, sa, fa, el, so, se⟩ := je
  cases tid <;> simp only [fetch_job_output] <;> split_ifs <;> rfl

/-- Claim C5 (counterexample): a Tower job is polled twice after reaching the
terminal remote state `successful`, and the stdout endpoint returns an empty
body; the second poll performs the output fetch again, because the skip is
keyed on `result_stdout` being non-empty rather than on the first transition
into a terminal state — so a subsequent poll on an already-terminal
execution is not a no-op with respect to output fetching. -/
theorem c5_refetch_counterexample :
    (update_job_status
        { execution_id := "e1", tower_job_id := some 5, status := "running" }
        (some { status := "successful", started := some "s", finished := some "f",
                elapsed := some 42 })
        { stdout_status := 200, stdout_text := "", events_status := 200,
          events := [] }).fetched = true ∧
    (update_job_status
        (update_job_status
          { execution_id := "e1", tower_job_id := some 5, status := "running" }
          (some { status := "successful", started := some "s", finished := some "f",
                  elapsed := some 42 })
          { stdout_status := 200, stdout_text := "", events_status := 200,
            events := [] }).job
        (some { status := "successful", started := some "s", finished := some "f",
                elapsed := some 42 })
        { stdout_status := 200, stdout_text := "", events_status := 200,
          events := [] }).fetched = true := by
  exact ⟨rfl, rfl⟩

/-- Claim C5 (amended): on a poll that maps the remote state to `successful`,
`failed` or `error` while `result_stdout` is still empty, `update_job_status`
fetches the output; provided that fetch stores a non-empty stdout, a second
poll with the same remote payload performs no output fetch and leaves
`elapsed` unchanged.  (The skip is keyed on a non-empty `result_stdout`, not
on the first terminal transition: an empty fetched stdout causes refetching,
and the terminal state `canceled` never triggers a fetch at all.) -/
theorem c5_poll_idempotent_after_fetch (je : JobExecution) (jd : TowerJobData)
    (resp : TowerOutputResponse)
    (hterm : status_mapping jd.status = "successful" ∨
      status_mapping jd.status = "failed" ∨ status_mapping jd.status = "error")
    (hempty : je.result_stdout = "")
    (hid : ¬ je.tower_job_id = none)
    (hok : resp.stdout_status = 200)
    (hne : ¬ resp.stdout_text = "") :
    (update_job_status je (some jd) resp).fetched = true ∧
    (update_job_status (update_job_status je (some jd) resp).job
        (some jd) resp).fetched = false ∧
    (update_job_status (update_job_status je (some jd) resp).job
        (some jd) resp).job.elapsed =
      (update_job_status je (some jd) resp).job.elapsed := by
  have h1 : (poll_apply_fields je jd).result_stdout = "" := by
    rw [poll_apply_fields_result_stdout]; exact hempty
  have r1eq : update_job_status je (some jd) resp =
      ⟨true, fetch_job_output (poll_apply_fields je jd) resp, true⟩ := by
    simp only [update_job_status]
    rw [if_pos ⟨hterm, h1⟩]
  have hid1 : ¬ (poll_apply_fields je jd).tower_job_id = none := by
    rw [poll_apply_fields_tower_job_id]; exact hid
  have h2 : (fetch_job_output (poll_apply_fields je jd) resp).result_stdout =
      resp.stdout_text :=
    fetch_job_output_result_stdout _ _ hid1 hok
  have h3 : ¬ (poll_apply_fields
      (fetch_job_output (poll_apply_fields je jd) resp) jd).result_stdout = "" := by
    rw [poll_apply_fields_result_stdout, h2]; exact hne
  have r2eq : update_job_status
      (fetch_job_output (poll_apply_fields je jd) resp) (some jd) resp =
      ⟨true, poll_apply_fields (fetch_job_output (poll_apply_fields je jd) resp) jd,
        false⟩ := by
    simp only [update_job_status]
    rw [if_neg (fun hc => h3 hc.2)]
  refine ⟨by rw [r1eq], ?_, ?_⟩
  · rw [r1eq]
    simp only
    rw [r2eq]
  · rw [r1eq]
    simp only
    rw [r2eq]
    simp only
    rw [poll_apply_fields_elapsed, fetch_job_output_elapsed, poll_apply_fields_elapsed]
    cases jd.elapsed with
    | none => rfl
    | some e =>
        by_cases he : e = 0
        · simp [he]
        · simp [he]

theorem c5_poll_idempotent_after_fetch_witness :
    (update_job_status
        { execution_id := "e1", tower_job_id := some 5, status := "running" }
        (some { status := "successful", started := some "s", finished := some "f",
                elapsed := some 42 })
        { stdout_status := 200, stdout_text := "PLAY RECAP", events_status := 200,
          events := [] }).fetched = true ∧
    (update_job_status
        (update_job_status
          { execution_id := "e1", tower_job_id := some 5, status := "running" }
          (some { status := "successful", started := some "s", finished := some "f",
                  elapsed := some 42 })
          { stdout_status := 200, stdout_text := "PLAY RECAP", events_status := 200,
            events := [] }).job
        (some { status := "successful", started := some "s", finished := some "f",
                elapsed := some 42 })
        { stdout_status := 200, stdout_text := "PLAY RECAP", events_status := 200,
          events := [] }).fetched = false ∧
    (update_job_status
        (update_job_status
          { execution_id := "e1", tower_job_id := some 5, status := "running" }
          (some { status := "successful", started := some "s", finished := some "f",
                  elapsed := some 42 })
          { stdout_status := 200, stdout_text := "PLAY RECAP", events_status := 200,
            events := [] }).job
        (some { status := "successful", started := some "s", finished := some "f",
                elapsed := some 42 })
        { stdout_status := 200, stdout_text := "PLAY RECAP", events_status := 200,
          events := [] }).job.elapsed =
      (update_job_status
        { execution_id := "e1", tower_job_id := some 5, status := "running" }
        (some { status := "successful", started := some "s", finished := some "f",
                elapsed := some 42 })
        { stdout_status := 200, stdout_text := "PLAY RECAP", events_status := 200,
          events := [] }).job.elapsed :=
  c5_poll_idempotent_after_fetch
    { execution_id := "e1", tower_job_id := some 5, status := "running" }
    { status := "successful", started := some "s", finished := some "f",
      elapsed := some 42 }
    { stdout_status := 200, stdout_text := "PLAY RECAP", events_status := 200,
      events := [] }
    (Or.inl rfl) rfl (by decide) rfl (by decide)

/-- Claim C1 (counterexample): the invariant fails in the full system — via
the scheduler-dispatch path (`tasks.py` lines 55-67, which creates the
execution as `approved` and enqueues it regardless of `requires_approval`),
an execution of an approval-requiring definition reaches `running` with no
approver recorded; no `StateConflictError` is raised anywhere, since the
runner sets `running` unconditionally (`services.py` lines 34-37). -/
theorem c1_running_without_approval_counterexample :
    SysReachable { requires_approval := true, status := .running,
                   approved_by := none, dispatched := true } :=
  SysReachable.step (SysReachable.sched_init true) (OpStep.run_start _ rfl)

/-- Claim C1 (amended): for executions created and dispatched through the
API endpoints alone (submit, approve, cancel, worker run), no execution
enters `running` unless its definition has `requires_approval = false` or
`approved_by` is already set; the guard lives at dispatch time — submit
enqueues only auto-approved runs and approve records the approver before
enqueueing — not in any `StateConflictError` check; executions created by
the scheduler bypass the guard (see the counterexample). -/
theorem c1_api_running_guard (e : ExecLife) (h : ApiReachable e)
    (hr : e.status = .running) :
    e.requires_approval = false ∨ e.approved_by.isSome = true := by
  suffices hinv :
      (e.dispatched = true → e.requires_approval = false ∨ e.approved_by.isSome = true) ∧
      (e.status = .running → e.dispatched = true) by
    exact hinv.1 (hinv.2 hr)
  clear hr
  induction h with
  | init ra =>
      cases ra with
      | false => exact ⟨fun _ => Or.inl rfl, fun _ => rfl⟩
      | true =>
          refine ⟨fun hd => ?_, fun hs => ?_⟩
          · exact absurd hd (by decide)
          · exact absurd hs (by decide)
  | step hre hstep ih =>
      cases hstep with
      | approve u hp =>
          exact ⟨fun _ => Or.inr rfl, fun _ => rfl⟩
      | cancel hc =>
          refine ⟨fun hd => ih.1 hd, fun hs => ?_⟩
          simp at hs
      | run_start hd =>
          exact ⟨fun _ => ih.1 hd, fun _ => hd⟩
      | run_finish s hr0 hs0 =>
          refine ⟨fun hd => ih.1 hd, fun hs => ?_⟩
          rcases hs0 with h' | h' | h' <;> rw [h'] at hs <;> simp at hs

theorem c1_api_running_guard_witness :
    ({ requires_approval := false, status := .running, approved_by := none,
       dispatched := true } : ExecLife).requires_approval = false ∨
    ({ requires_approval := false, status := .running, approved_by := none,
       dispatched := true } : ExecLife).approved_by.isSome = true :=
  c1_api_running_guard _
    (ApiReachable.step (ApiReachable.init false) (OpStep.run_start _ rfl))
    rfl

/-- Claim C7 (code behaviour at the failing input): for a `cron` schedule
with expression `0 9 * * *` at `now = 2024-01-01 10:30:00 UTC`,
`calculate_next_run` returns `now + 1 hour` — `2024-01-01 11:30:00`, which
does not match the cron expression (minute 30 instead of 0), while
`2024-01-02 09:00:00` would; and the result is identical under a different
expression — the `cron` branch ignores `cron_expression` entirely and is a
stub, not a full cron-expression evaluation. -/
theorem c7_cron_stub_eval :
    calculate_next_run
        { schedule_type := "cron", scheduled_time := ⟨9, 0, 0⟩,
          cron_expression := "0 9 * * *" } ⟨2024, 1, 1, 10, 30, 0⟩ =
      some ⟨2024, 1, 1, 11, 30, 0⟩ ∧
    cronMatches ⟨.num 0, .num 9, .star, .star, .star⟩ ⟨2024, 1, 1, 11, 30, 0⟩ = false ∧
    cronMatches ⟨.num 0, .num 9, .star, .star, .star⟩ ⟨2024, 1, 2, 9, 0, 0⟩ = true ∧
    calculate_next_run
        { schedule_type := "cron", scheduled_time := ⟨9, 0, 0⟩,
          cron_expression := "30 14 * * *" } ⟨2024, 1, 1, 10, 30, 0⟩ =
      some ⟨2024, 1, 1, 11, 30, 0⟩ := by
  refine ⟨?_, ?_, ?_, ?_⟩ <;> decide

end Otomasyon
